import Mathlib

/-!
# Verification of the momentovitaebot Telegram bot

Shallow embedding of the bot's pure logic (date parsing, progress bar,
moon phase, persistence adapter semantics, dispatcher routing, the
conversation state machine and the weekly broadcast job) from
`src/bot.py` and `src/database.py`, together with theorems settling the
specification's claims about them.
-/

/-- A calendar date as produced by Python's `datetime.date`:
`year`/`month`/`day` as natural numbers. -/
structure PyDate where
  year : Nat
  month : Nat
  day : Nat
deriving DecidableEq, Repr

/-- Gregorian leap-year rule, as used by Python's `datetime`. -/
def isLeapYear (y : Nat) : Bool :=
  (y % 4 == 0 && y % 100 != 0) || (y % 400 == 0)

/-- Days in a month of a given year (Python `calendar` semantics used by
`datetime.date` validation). -/
def daysInMonth (y m : Nat) : Nat :=
  if m == 2 then (if isLeapYear y then 29 else 28)
  else if m == 4 || m == 6 || m == 9 || m == 11 then 30
  else 31

/-- Numeric value of a digit string, most significant first. -/
def digitsToNat (cs : List Char) : Nat :=
  cs.foldl (fun a c => a * 10 + (c.toNat - 48)) 0

/-- Split a character list at every `.` character (the literal-dot
separators of the `"%d.%m.%Y"` format string). -/
def splitDots : List Char → List (List Char)
  | [] => [[]]
  | c :: rest =>
    let r := splitDots rest
    if c = '.' then [] :: r
    else
      match r with
      | [] => [[c]]
      | h :: t => (c :: h) :: t

/-- CPython `_strptime` field pattern for `%d`:
`3[01]|[12]\d|0[1-9]|[1-9]` — one or two digits, value 1..31,
two-digit `00` excluded. -/
def dayFieldOK (cs : List Char) : Bool :=
  cs.all Char.isDigit &&
    ((cs.length == 1 || cs.length == 2) &&
      (1 ≤ digitsToNat cs && digitsToNat cs ≤ 31))

/-- CPython `_strptime` field pattern for `%m`:
`1[0-2]|0[1-9]|[1-9]` — one or two digits, value 1..12. -/
def monthFieldOK (cs : List Char) : Bool :=
  cs.all Char.isDigit &&
    ((cs.length == 1 || cs.length == 2) &&
      (1 ≤ digitsToNat cs && digitsToNat cs ≤ 12))

/-- CPython `_strptime` field pattern for `%Y`: exactly four digits. -/
def yearFieldOK (cs : List Char) : Bool :=
  cs.all Char.isDigit && cs.length == 4

/-- Python's `datetime.datetime.strptime(s, "%d.%m.%Y")`, returning
`none` where CPython raises `ValueError`: the whole string must be
day-field `.` month-field `.` four-digit-year, and the triple must name
a constructible `datetime` (year ≥ 1, day within the month). Since the
day/month/year field patterns are digits-only, the regex full-match
performed by `_strptime` is equivalent to splitting the input at the
dots and matching each field. -/
def strptime_d_m_Y (s : String) : Option PyDate :=
  match splitDots s.toList with
  | [d, m, y] =>
    if dayFieldOK d && monthFieldOK m && yearFieldOK y then
      let dv := digitsToNat d
      let mv := digitsToNat m
      let yv := digitsToNat y
      if 1 ≤ yv && dv ≤ daysInMonth yv mv then some ⟨yv, mv, dv⟩
      else none
    else none
  | _ => none

/-- `validate_date` from `src/bot.py` (lines 212-216): strict strptime
parse of `"%d.%m.%Y"`, the `ValueError` of a failed parse caught and
turned into `None` (here `none`); the `.date()` projection of the
parsed `datetime` is the identity on the year/month/day triple. -/
def validate_date (date_str : String) : Option PyDate :=
  strptime_d_m_Y date_str

/-- Modelled from the spec: the "exact pattern DD.MM.YYYY" named by the
specification — exactly two day digits, two month digits, four year
digits, dot-separated. Written from the spec's words, to be compared
with the `strptime_d_m_Y` behaviour of the source. -/
def specExactPattern (s : String) : Bool :=
  match splitDots s.toList with
  | [d, m, y] =>
    d.all Char.isDigit && d.length == 2 &&
    m.all Char.isDigit && m.length == 2 &&
    y.all Char.isDigit && y.length == 4
  | _ => false

example : validate_date "15.05.1990" = some ⟨1990, 5, 15⟩ := by decide
example : validate_date "31.02.2001" = none := by decide
example : validate_date "29.02.2000" = some ⟨2000, 2, 29⟩ := by decide
example : validate_date "29.02.1900" = none := by decide
example : validate_date "5.5.1990" = some ⟨1990, 5, 5⟩ := by decide
example : validate_date "15.05.90" = none := by decide
example : validate_date "not-a-date" = none := by decide
example : validate_date "01.01.0000" = none := by decide
example : specExactPattern "5.5.1990" = false := by decide
example : specExactPattern "15.05.1990" = true := by decide

/-! ## Persistence adapter (`users` table)

The `users` table of `users.db` has schema
`users(user_id INTEGER PRIMARY KEY, birth_date TEXT)`. We model it as a
list of rows in storage order. `INSERT OR REPLACE` deletes every row
that conflicts on the primary key and appends the new row;
`SELECT ... WHERE user_id = ?` returns the first matching row. -/

/-- The rows of the `users` table. -/
abbrev UsersTable := List (Int × String)

/-- `save_user` from `src/bot.py` (lines 89-101):
`INSERT OR REPLACE INTO users (user_id, birth_date) VALUES (?, ?)` —
delete any row with the same primary key, then insert the new row. -/
def save_user (db : UsersTable) (user_id : Int) (birth_date : String) : UsersTable :=
  db.filter (fun r => r.1 != user_id) ++ [(user_id, birth_date)]

/-- `get_user` from `src/bot.py` (lines 104-115):
`SELECT birth_date FROM users WHERE user_id = ?` then `fetchone()` —
the `birth_date` of the first row with that key, else `None`. -/
def get_user (db : UsersTable) (user_id : Int) : Option String :=
  (db.find? (fun r => r.1 == user_id)).map Prod.snd

/-- `get_all_users` from `src/bot.py` (lines 118-127):
`SELECT user_id, birth_date FROM users` then `fetchall()`. -/
def get_all_users (db : UsersTable) : List (Int × String) := db

/-- The legacy `save_user` from `src/database.py` (lines 27-38): it
first runs `datetime.strptime(birth_date, "%d.%m.%Y")` and raises
`ValueError("Неверный формат даты")` when the parse fails — modelled by
the `Except.error` branch, which carries the message together with the
untouched table — and only otherwise executes the
`INSERT OR REPLACE`. -/
def database_save_user (db : UsersTable) (user_id : Int) (birth_date : String) :
    Except (String × UsersTable) UsersTable :=
  if (strptime_d_m_Y birth_date).isSome then
    Except.ok (save_user db user_id birth_date)
  else
    Except.error ("Неверный формат даты", db)

/-! ## `create_progress_bar` -/

/-- Python's `int()` on an exact numeric value: truncation toward
zero. -/
def pyTrunc (q : ℚ) : ℤ :=
  if 0 ≤ q then ⌊q⌋ else ⌈q⌉

/-- Python's `str * n` repetition: `n` copies for `n ≥ 0`, the empty
string for negative `n`. -/
def pyRepeat (c : Char) (n : ℤ) : String :=
  ⟨List.replicate n.toNat c⟩

/-- `create_progress_bar` from `src/bot.py` (lines 219-222):
`filled = chr(0x25b0) * int(percentage * length)` then
`empty = chr(0x25b1) * (length - len(filled))`, concatenated. The
trailing `" {percentage:.1%}"` text of the source is omitted here: it
is decimal-digit text containing neither bar glyph, so glyph counts are
unaffected. -/
def create_progress_bar (percentage : ℚ) (length : ℤ := 10) : String :=
  let filled := pyRepeat '▰' (pyTrunc (percentage * length))
  let empty := pyRepeat '▱' (length - filled.length)
  filled ++ empty


/-! ## `get_moon_phase` -/

/-- The fixed `phases` list of `get_moon_phase` in `src/bot.py`
(lines 226-231). -/
def moonPhases : List String :=
  ["🌑 Новолуние - Начало пути", "🌒 Молодая луна - Время действий",
   "🌓 Первая четверть - Испытание воли", "🌔 Прибывающая - Сбор плодов",
   "🌕 Полнолуние - Пик возможностей", "🌖 Убывающая - Анализ итогов",
   "🌗 Последняя четверть - Отпускание", "🌘 Старая луна - Подготовка"]

/-- `get_moon_phase` from `src/bot.py` (lines 225-232):
`phases[datetime.datetime.now().day % 8]`, parameterised by the current
day of month; `none` models Python's `IndexError` on an out-of-range
index. -/
def get_moon_phase (day_of_month : Nat) : Option String :=
  moonPhases.get? (day_of_month % 8)

/-! ## Date arithmetic

Python's `datetime.date` subtraction returns a `timedelta` whose
`.days` is the difference of the two dates' proleptic Gregorian
ordinals (`date.toordinal`). -/

/-- Days in all years strictly before year `y`
(`datetime._days_before_year`). -/
def daysBeforeYear (y : Nat) : Nat :=
  365 * (y - 1) + (y - 1) / 4 - (y - 1) / 100 + (y - 1) / 400

/-- Days in year `y` strictly before month `m`
(`datetime._days_before_month`). -/
def daysBeforeMonth (y m : Nat) : Nat :=
  (List.range (m - 1)).foldl (fun a i => a + daysInMonth y (i + 1)) 0

/-- `datetime.date.toordinal()`: day count from the proleptic Gregorian
epoch, with 01.01.0001 as day 1. -/
def toordinal (d : PyDate) : Nat :=
  daysBeforeYear d.year + daysBeforeMonth d.year d.month + d.day

/-- `(a - b).days` for two Python dates. -/
def dateSubDays (a b : PyDate) : ℤ :=
  (toordinal a : ℤ) - (toordinal b : ℤ)

/-- The weeks-lived expression
`(datetime.date.today() - birth_date).days // 7` computed identically
in `start_handler` (line 299), `handle_years` (line 368),
`handle_progress` (line 431) and `send_weekly_update` (line 241) of
`src/bot.py`; Python `//` is floor division, `Int.fdiv`. -/
def weeksLived (birth today : PyDate) : ℤ :=
  Int.fdiv (dateSubDays today birth) 7

/-! ## The dispatcher

aiogram 3 tries the handlers of `dp.message(...)` in registration
order and the first handler whose filters all pass consumes the
update. The registered filters depend only on the message text and the
sender's FSM conversation state. -/

/-- The five fixed reply-keyboard labels (`BotTexts.BUTTONS`,
`src/bot.py` lines 155-161). -/
def buttonYears : String := "📅 Хронология бытия"

def buttonHours : String := "⏳ Песочные миры"

def buttonProgress : String := "📜 Прогресс жизни"

def buttonChangeDate : String := "✒️ Переписать судьбу"

def buttonMotivation : String := "🔮 Мудрость эпох"

/-- Per-user FSM conversation state (`UserState` in `src/bot.py`,
lines 144-146; `NONE` is aiogram's default no-state). -/
inductive ConvState
  | NONE
  | WAITING_BIRTH_DATE
  | WAITING_NEW_BIRTH_DATE
deriving DecidableEq, Repr

/-- The message handlers of `src/bot.py`, one constructor per
`@dp.message(...)` registration. -/
inductive Handler
  | start_handler
  | process_birth_date
  | handle_years
  | handle_hours
  | handle_progress
  | handle_motivation
  | handle_change_date
  | process_new_birth_date
  | fallback_handler
  | admin_stats_handler
deriving DecidableEq, Repr

/-- aiogram's `Command` filter: the first whitespace-delimited token of
the text must start with `/`; the command name is that token without
the `/` prefix and without any `@botname` mention suffix. -/
def commandOf (text : String) : Option String :=
  match text.toList with
  | '/' :: rest =>
    some ⟨(rest.takeWhile (fun c => !c.isWhitespace)).takeWhile (fun c => c != '@')⟩
  | _ => none

/-- The filter each handler was registered with, as a predicate on the
message text and the sender's conversation state. -/
def matchesHandler (text : String) (st : ConvState) : Handler → Bool
  | .start_handler => commandOf text == some "start" || commandOf text == some "help"
  | .process_birth_date => st == .WAITING_BIRTH_DATE
  | .handle_years => text == buttonYears
  | .handle_hours => text == buttonHours
  | .handle_progress => text == buttonProgress
  | .handle_motivation => text == buttonMotivation
  | .handle_change_date => text == buttonChangeDate
  | .process_new_birth_date => st == .WAITING_NEW_BIRTH_DATE
  | .fallback_handler => true
  | .admin_stats_handler => commandOf text == some "superstats"

/-- The handlers in the order they are registered on the dispatcher in
`src/bot.py` (decorator source order: lines 284, 322, 351, 383, 414,
450, 479, 493, 516, 538). -/
def registrationOrder : List Handler :=
  [.start_handler, .process_birth_date, .handle_years, .handle_hours,
   .handle_progress, .handle_motivation, .handle_change_date,
   .process_new_birth_date, .fallback_handler, .admin_stats_handler]

/-- aiogram dispatch: the first registered handler whose filter
passes. -/
def dispatch (text : String) (st : ConvState) : Option Handler :=
  registrationOrder.find? (matchesHandler text st)

example : dispatch "/start" .NONE = some .start_handler := by decide
example : dispatch "/superstats" .NONE = some .fallback_handler := by decide
example : dispatch "xyz" .WAITING_BIRTH_DATE = some .process_birth_date := by decide
example : dispatch buttonYears .NONE = some .handle_years := by decide

/-! ## The conversation state machine

Persistent state touched by the handlers: the `users` table and each
user's volatile FSM conversation state. Replies sent back to the chat
and the append-only `messages` log do not feed back into routing or
the `users` table and are omitted from the state. -/

/-- The state the message handlers read and write. -/
structure SysState where
  users : UsersTable
  fsm : Int → ConvState

/-- Fresh start: empty `users` table, every user in the default
no-state. -/
def initState : SysState := ⟨[], fun _ => .NONE⟩

/-- Point update of the FSM map (`state.set_state` /
`state.clear`). -/
def setFsm (f : Int → ConvState) (uid : Int) (st : ConvState) : Int → ConvState :=
  fun u => if u = uid then st else f u

/-- Python's `str.strip()` with no argument: remove leading and
trailing whitespace (list-based so that it evaluates by kernel
reduction). -/
def pyStrip (s : String) : String :=
  ⟨((s.toList.dropWhile Char.isWhitespace).reverse.dropWhile Char.isWhitespace).reverse⟩

/-- State effect of each handler of `src/bot.py` on the sender's
conversation state and the `users` table:
* `start_handler` (284-319): no stored date, or a stored date failing
  validation, puts the sender in `WAITING_BIRTH_DATE`; a stored valid
  date leaves state alone. Never writes `users`.
* `process_birth_date` (322-348) and `process_new_birth_date`
  (493-512): strip the text; only a successfully validated input is
  passed to `save_user`, then the state is cleared; otherwise nothing
  changes but the reply.
* `handle_change_date` (479-490): sets `WAITING_NEW_BIRTH_DATE`.
* every other handler only replies (the fallback also appends to the
  `messages` log, which is not part of this state). -/
def runHandler (h : Handler) (s : SysState) (uid : Int) (text : String) : SysState :=
  match h with
  | .start_handler =>
    match get_user s.users uid with
    | none => { s with fsm := setFsm s.fsm uid .WAITING_BIRTH_DATE }
    | some bd =>
      if (validate_date bd).isSome then s
      else { s with fsm := setFsm s.fsm uid .WAITING_BIRTH_DATE }
  | .process_birth_date =>
    if (validate_date (pyStrip text)).isSome then
      { users := save_user s.users uid (pyStrip text), fsm := setFsm s.fsm uid .NONE }
    else s
  | .process_new_birth_date =>
    if (validate_date (pyStrip text)).isSome then
      { users := save_user s.users uid (pyStrip text), fsm := setFsm s.fsm uid .NONE }
    else s
  | .handle_change_date => { s with fsm := setFsm s.fsm uid .WAITING_NEW_BIRTH_DATE }
  | _ => s

/-- One inbound message: dispatch on the sender's current conversation
state, then run the matched handler. -/
def handleMessage (s : SysState) (uid : Int) (text : String) : SysState :=
  match dispatch text (s.fsm uid) with
  | some h => runHandler h s uid text
  | none => s

/-- States reachable from a fresh start by any sequence of inbound
messages. -/
inductive Reachable : SysState → Prop
  | init : Reachable initState
  | step (s : SysState) (uid : Int) (text : String) :
      Reachable s → Reachable (handleMessage s uid text)

/-! ## The weekly broadcast job -/

/-- Outcome of one `send_weekly_update` call: either the report was
handed to `bot.send_message`, or an exception (unparseable stored
date, or a send failure) was caught by the function's own
`try/except` and logged. -/
inductive SendOutcome
  | delivered
  | errorLogged
deriving DecidableEq, Repr

/-- `send_weekly_update` from `src/bot.py` (lines 236-256): parse the
stored date with `strptime` and send the computed report; the whole
body sits in a `try/except Exception` that logs and returns, so no
error escapes to the caller. `sendOk` is the oracle for whether
`bot.send_message` succeeds for a given recipient. -/
def send_weekly_update (sendOk : Int → Bool) (user_id : Int) (birth_date : String) :
    SendOutcome :=
  match strptime_d_m_Y birth_date with
  | none => .errorLogged
  | some _ => if sendOk user_id then .delivered else .errorLogged

/-- `weekly_updates_task` from `src/bot.py` (lines 259-266): iterate
`get_all_users()` and await `send_weekly_update` for each row,
recording each user's outcome in order. -/
def weekly_updates_task (sendOk : Int → Bool) (db : UsersTable) :
    List (Int × SendOutcome) :=
  (get_all_users db).map (fun r => (r.1, send_weekly_update sendOk r.1 r.2))

/-! ## The admin stats handler body -/

/-- Observable actions of `admin_stats_handler`, in execution order:
replies sent, and the three database aggregations of the success path
(`get_all_users()`, `SELECT COUNT(*) FROM messages`, the top-5
`GROUP BY` query). `replyStats` stands for the statistics message
assembled from the query results. -/
inductive AdminEffect
  | reply (text : String)
  | dbGetAllUsers
  | dbCountMessages
  | dbTopUsers
  | replyStats
deriving DecidableEq, Repr

/-- The access-denied reply of `admin_stats_handler`. -/
def accessDeniedText : String := "⛔ У вас нет доступа к этой команде."

/-- Python truthiness test `not ADMIN_ID` on the optional admin id:
true when the environment variable is unset (`None`) and for the
falsy integer `0`. -/
def adminIdFalsy : Option Int → Bool
  | none => true
  | some a => a == 0

/-- Body of `admin_stats_handler` from `src/bot.py` (lines 538-583) as
its trace of observable actions:
`if not ADMIN_ID or message.from_user.id != ADMIN_ID:` answer the
access-denied reply and return; otherwise run the three aggregation
queries and answer the assembled statistics. -/
def admin_stats_handler_run (admin_id : Option Int) (sender_id : Int) :
    List AdminEffect :=
  if adminIdFalsy admin_id || some sender_id != admin_id then
    [.reply accessDeniedText]
  else
    [.dbGetAllUsers, .dbCountMessages, .dbTopUsers, .replyStats]

/-! ## Helper lemmas -/

/-- `splitDots` of a dot-free list is that single field. -/
theorem splitDots_noDot (cs : List Char) (h : '.' ∉ cs) : splitDots cs = [cs] := by
  induction cs with
  | nil => rfl
  | cons c rest ih =>
    have hc : c ≠ '.' := fun he => h (he ▸ List.mem_cons_self c rest)
    have hr : '.' ∉ rest := fun hm => h (List.mem_cons_of_mem c hm)
    simp only [splitDots, if_neg hc, ih hr]

/-- `splitDots` peels off a dot-free prefix at its terminating dot. -/
theorem splitDots_append_dot (xs ys : List Char) (h : '.' ∉ xs) :
    splitDots (xs ++ '.' :: ys) = xs :: splitDots ys := by
  induction xs with
  | nil => simp [splitDots]
  | cons c rest ih =>
    have hc : c ≠ '.' := fun he => h (he ▸ List.mem_cons_self c rest)
    have hr : '.' ∉ rest := fun hm => h (List.mem_cons_of_mem c hm)
    simp only [List.cons_append, splitDots, if_neg hc, List.append_eq, ih hr]

/-- A digit is not a dot. -/
theorem dot_not_mem_of_digits (cs : List Char) (h : cs.all Char.isDigit = true) :
    '.' ∉ cs := by
  intro hm
  have := List.all_eq_true.1 h '.' hm
  simp [Char.isDigit] at this

/-- No month has more than 31 days. -/
theorem daysInMonth_le_31 (y m : Nat) : daysInMonth y m ≤ 31 := by
  unfold daysInMonth
  split
  · split <;> omega
  · split <;> omega

/-- Completeness of the parse: a dot-separated triple of digit fields
naming a constructible calendar date is accepted and yields exactly
that date. -/
theorem strptime_roundtrip (dd mm yy : List Char)
    (hdd : dd.all Char.isDigit = true) (hddl : dd.length = 2)
    (hmm : mm.all Char.isDigit = true) (hmml : mm.length = 2)
    (hyy : yy.all Char.isDigit = true) (hyyl : yy.length = 4)
    (hy1 : 1 ≤ digitsToNat yy) (hm1 : 1 ≤ digitsToNat mm) (hm2 : digitsToNat mm ≤ 12)
    (hd1 : 1 ≤ digitsToNat dd)
    (hd2 : digitsToNat dd ≤ daysInMonth (digitsToNat yy) (digitsToNat mm)) :
    strptime_d_m_Y ⟨dd ++ '.' :: (mm ++ '.' :: yy)⟩ =
      some ⟨digitsToNat yy, digitsToNat mm, digitsToNat dd⟩ := by
  have hsplit : splitDots (dd ++ '.' :: (mm ++ '.' :: yy)) = [dd, mm, yy] := by
    rw [splitDots_append_dot _ _ (dot_not_mem_of_digits dd hdd),
        splitDots_append_dot _ _ (dot_not_mem_of_digits mm hmm),
        splitDots_noDot _ (dot_not_mem_of_digits yy hyy)]
  have htl : (String.mk (dd ++ '.' :: (mm ++ '.' :: yy))).toList
      = dd ++ '.' :: (mm ++ '.' :: yy) := rfl
  unfold strptime_d_m_Y
  rw [htl, hsplit]
  have hday : dayFieldOK dd = true := by
    simp [dayFieldOK, hdd, hddl, hd1, le_trans hd2 (daysInMonth_le_31 _ _)]
  have hmon : monthFieldOK mm = true := by
    simp [monthFieldOK, hmm, hmml, hm1, hm2]
  have hyr : yearFieldOK yy = true := by
    simp [yearFieldOK, hyy, hyyl]
  simp [hday, hmon, hyr, hy1, hd2]

/-- Soundness of the parse: every accepted date is a constructible
calendar date. -/
theorem strptime_sound (s : String) (d : PyDate) (h : strptime_d_m_Y s = some d) :
    1 ≤ d.year ∧ 1 ≤ d.month ∧ d.month ≤ 12 ∧ 1 ≤ d.day ∧
      d.day ≤ daysInMonth d.year d.month := by
  unfold strptime_d_m_Y at h
  split at h
  case h_2 => exact absurd h (by simp)
  case h_1 dd mm yy heq =>
    by_cases h1 : (dayFieldOK dd && monthFieldOK mm && yearFieldOK yy) = true
    case neg => rw [if_neg h1] at h; exact absurd h (by simp)
    case pos =>
      rw [if_pos h1] at h
      by_cases h2 : (decide (1 ≤ digitsToNat yy) &&
          decide (digitsToNat dd ≤ daysInMonth (digitsToNat yy) (digitsToNat mm))) = true
      case neg => rw [if_neg h2] at h; exact absurd h (by simp)
      case pos =>
        rw [if_pos h2] at h
        have hd : d = ⟨digitsToNat yy, digitsToNat mm, digitsToNat dd⟩ :=
          (Option.some_injective _ h).symm
        subst hd
        simp only [Bool.and_eq_true, decide_eq_true_eq] at h1 h2
        have hmon := h1.1.2
        have hday := h1.1.1
        simp only [monthFieldOK, Bool.and_eq_true, decide_eq_true_eq] at hmon
        simp only [dayFieldOK, Bool.and_eq_true, decide_eq_true_eq] at hday
        exact ⟨h2.1, hmon.2.2.1, hmon.2.2.2, hday.2.2.1, h2.2⟩

/-- Character-list view of the rendered bar: the filled glyphs followed
by the empty glyphs, with the counts the source computes. -/
theorem create_progress_bar_toList (q : ℚ) (len : ℤ) :
    (create_progress_bar q len).toList =
      List.replicate (pyTrunc (q * len)).toNat '▰' ++
      List.replicate (len - ((pyTrunc (q * len)).toNat : ℤ)).toNat '▱' := by
  simp [create_progress_bar, pyRepeat, String.length]

/-- Glyph counts of the rendered bar. -/
theorem create_progress_bar_glyph_counts (q : ℚ) (len : ℤ) :
    (create_progress_bar q len).toList.count '▰' = (pyTrunc (q * len)).toNat ∧
    (create_progress_bar q len).toList.count '▱' =
      (len - ((pyTrunc (q * len)).toNat : ℤ)).toNat := by
  rw [create_progress_bar_toList, List.count_append, List.count_append]
  simp [List.count_replicate]

/-! ## Claims -/

/-- C1: the claim says `/superstats` is routed to the admin stats
handler before the catch-all fallback. In the code the catch-all
`fallback_handler` is registered before `admin_stats_handler`, and
aiogram dispatches to the first registered handler whose filters pass,
so a `/superstats` message never reaches `admin_stats_handler` in any
conversation state; in the default state it is consumed by
`fallback_handler`. -/
theorem superstats_never_reaches_admin_handler :
    (∀ st : ConvState, dispatch "/superstats" st ≠ some Handler.admin_stats_handler) ∧
    dispatch "/superstats" ConvState.NONE = some Handler.fallback_handler := by
  constructor
  · intro st
    cases st <;> decide
  · decide

/-- C2 counterexample: the claim says the filled-glyph count is clamped
to at most 10, and in particular that `progress_bar(1.5)` renders no
more than 10 filled glyphs; the code performs no clamping and renders
15 filled glyphs at ratio 1.5. -/
theorem create_progress_bar_not_clamped :
    (create_progress_bar (3/2) 10).toList.count '▰' = 15 ∧
    ¬ (create_progress_bar (3/2) 10).toList.count '▰' ≤ 10 := by
  have h := (create_progress_bar_glyph_counts (3/2) 10).1
  have h2 : pyTrunc ((3/2 : ℚ) * ((10 : ℤ) : ℚ)) = 15 := by
    rw [pyTrunc]
    norm_num
  rw [h, h2]
  decide

/-- C2 amended: for every non-negative ratio, `create_progress_bar`
renders `floor(ratio*10)` filled glyphs — not clamped, so the count
exceeds 10 whenever ratio > 1 — followed by `max(0, 10 - filled)` empty
glyphs, so the empty count is never negative and is 0 once the filled
count reaches 10; at ratio 0.0 the bar is 0 filled / 10 empty, at 1.0
it is 10 filled / 0 empty, and at 1.5 it is 15 filled / 0 empty. -/
theorem create_progress_bar_floor_semantics (q : ℚ) (hq : 0 ≤ q) :
    (create_progress_bar q 10).toList.count '▰' = (⌊q * 10⌋).toNat ∧
    (create_progress_bar q 10).toList.count '▱' = ((10 : ℤ) - ⌊q * 10⌋).toNat ∧
    (create_progress_bar 0 10).toList.count '▰' = 0 ∧
    (create_progress_bar 0 10).toList.count '▱' = 10 ∧
    (create_progress_bar 1 10).toList.count '▰' = 10 ∧
    (create_progress_bar 1 10).toList.count '▱' = 0 ∧
    (create_progress_bar (3/2) 10).toList.count '▰' = 15 ∧
    (create_progress_bar (3/2) 10).toList.count '▱' = 0 := by
  have key : ∀ r : ℚ, 0 ≤ r →
      (create_progress_bar r 10).toList.count '▰' = (⌊r * 10⌋).toNat ∧
      (create_progress_bar r 10).toList.count '▱' = ((10 : ℤ) - ⌊r * 10⌋).toNat := by
    intro r hr
    have hc := create_progress_bar_glyph_counts r 10
    have htr : pyTrunc (r * ((10 : ℤ) : ℚ)) = ⌊r * 10⌋ := by
      rw [pyTrunc, if_pos (by positivity)]
      norm_num
    have hfl : (0 : ℤ) ≤ ⌊r * 10⌋ := Int.floor_nonneg.2 (by positivity)
    constructor
    · rw [hc.1, htr]
    · rw [hc.2, htr, Int.toNat_of_nonneg hfl]
  refine ⟨(key q hq).1, (key q hq).2, ?_, ?_, ?_, ?_, ?_, ?_⟩
  · rw [(key 0 le_rfl).1]; norm_num
  · rw [(key 0 le_rfl).2]; norm_num; decide
  · rw [(key 1 zero_le_one).1]; norm_num; decide
  · rw [(key 1 zero_le_one).2]; norm_num
  · rw [(key (3/2) (by norm_num)).1]; norm_num; decide
  · rw [(key (3/2) (by norm_num)).2]; norm_num

/-- C2 witness: the amended theorem applied at the concrete ratio
1/2, giving a 5 filled / 5 empty bar. -/
theorem create_progress_bar_floor_semantics_witness :
    (0 : ℚ) ≤ 1/2 ∧
    (create_progress_bar (1/2) 10).toList.count '▰' = 5 ∧
    (create_progress_bar (1/2) 10).toList.count '▱' = 5 := by
  have h := create_progress_bar_floor_semantics (1/2) (by norm_num)
  refine ⟨by norm_num, ?_, ?_⟩
  · rw [h.1]; norm_num; decide
  · rw [h.2.1]; norm_num; decide

/-- C3 counterexample: the claim says every string not matching the
exact DD.MM.YYYY pattern yields the invalid result, but the input
`"5.5.1990"` — single-digit day and month, outside the exact pattern —
is accepted by `validate_date` and parsed as 05.05.1990, because
CPython's strptime `%d`/`%m` field patterns also accept one digit. -/
theorem validate_date_accepts_non_exact_pattern :
    validate_date "5.5.1990" = some ⟨1990, 5, 5⟩ ∧
    specExactPattern "5.5.1990" = false := by
  decide

/-- C3 amended: `validate_date` never raises (it is a total function
into `Option`); every valid calendar date written in the exact
DD.MM.YYYY pattern round-trips to that same calendar date; and every
accepted string names a possible calendar date — but the set of
accepted strings is the lenient strptime language (day and month may
also be a single digit), not only the exact DD.MM.YYYY pattern. -/
theorem validate_date_roundtrip_and_sound (dd mm yy : List Char)
    (hdd : dd.all Char.isDigit = true) (hddl : dd.length = 2)
    (hmm : mm.all Char.isDigit = true) (hmml : mm.length = 2)
    (hyy : yy.all Char.isDigit = true) (hyyl : yy.length = 4)
    (hy1 : 1 ≤ digitsToNat yy) (hm1 : 1 ≤ digitsToNat mm) (hm2 : digitsToNat mm ≤ 12)
    (hd1 : 1 ≤ digitsToNat dd)
    (hd2 : digitsToNat dd ≤ daysInMonth (digitsToNat yy) (digitsToNat mm)) :
    validate_date ⟨dd ++ '.' :: (mm ++ '.' :: yy)⟩ =
      some ⟨digitsToNat yy, digitsToNat mm, digitsToNat dd⟩ ∧
    (∀ (s : String) (d : PyDate), validate_date s = some d →
      1 ≤ d.year ∧ 1 ≤ d.month ∧ d.month ≤ 12 ∧ 1 ≤ d.day ∧
        d.day ≤ daysInMonth d.year d.month) :=
  ⟨strptime_roundtrip dd mm yy hdd hddl hmm hmml hyy hyyl hy1 hm1 hm2 hd1 hd2,
   fun s d h => strptime_sound s d h⟩

/-- C3 witness: the amended theorem applied to the concrete exact
DD.MM.YYYY input `"15.05.1990"`. -/
theorem validate_date_roundtrip_and_sound_witness :
    validate_date "15.05.1990" = some ⟨1990, 5, 15⟩ := by
  have h := (validate_date_roundtrip_and_sound ['1','5'] ['0','5'] ['1','9','9','0']
    (by decide) (by decide) (by decide) (by decide) (by decide) (by decide)
    (by decide) (by decide) (by decide) (by decide) (by decide)).1
  have he : ("15.05.1990" : String) =
      ⟨['1','5'] ++ '.' :: (['0','5'] ++ '.' :: ['1','9','9','0'])⟩ := by decide
  rw [he, h]
  decide

/-- Rows of a `save_user` result come from the old table or are the new
row. -/
theorem mem_save_user {db : UsersTable} {uid : Int} {bd : String} {r : Int × String}
    (h : r ∈ save_user db uid bd) : r ∈ db ∨ r = (uid, bd) := by
  unfold save_user at h
  rcases List.mem_append.1 h with h1 | h1
  · exact Or.inl (List.mem_of_mem_filter h1)
  · exact Or.inr (List.mem_singleton.1 h1)

/-- Every handler either leaves the `users` table untouched, or writes
the stripped input after it passed validation. -/
theorem runHandler_users (h : Handler) (s : SysState) (uid : Int) (text : String) :
    (runHandler h s uid text).users = s.users ∨
    ((runHandler h s uid text).users = save_user s.users uid (pyStrip text) ∧
      (validate_date (pyStrip text)).isSome = true) := by
  cases h
  case start_handler =>
    rcases hg : get_user s.users uid with _ | bd
    · exact Or.inl (by simp [runHandler, hg])
    · by_cases hv : (validate_date bd).isSome = true
      · exact Or.inl (by simp [runHandler, hg, hv])
      · exact Or.inl (by simp [runHandler, hg, hv])
  case process_birth_date =>
    by_cases hv : (validate_date (pyStrip text)).isSome = true
    · exact Or.inr ⟨by simp [runHandler, hv], hv⟩
    · exact Or.inl (by simp [runHandler, hv])
  case process_new_birth_date =>
    by_cases hv : (validate_date (pyStrip text)).isSome = true
    · exact Or.inr ⟨by simp [runHandler, hv], hv⟩
    · exact Or.inl (by simp [runHandler, hv])
  all_goals exact Or.inl rfl

/-- C4: invariant over every reachable state — every `birth_date`
stored in the `users` table passed `validate_date` (after stripping)
before `save_user` was called, in both the first-time input handler and
the replacement-date handler; no handler ever stores an unvalidated
string. -/
theorem stored_birth_dates_validated (s : SysState) (hs : Reachable s) :
    ∀ r ∈ s.users, (validate_date r.2).isSome = true := by
  induction hs with
  | init =>
    intro r hr
    simp [initState] at hr
  | step s' uid text _ ih =>
    intro r hr
    unfold handleMessage at hr
    rcases hd : dispatch text (s'.fsm uid) with _ | h
    · rw [hd] at hr
      exact ih r hr
    · rw [hd] at hr
      rcases runHandler_users h s' uid text with hu | ⟨hu, hv⟩
      · rw [hu] at hr
        exact ih r hr
      · rw [hu] at hr
        rcases mem_save_user hr with hmem | heq
        · exact ih r hmem
        · rw [heq]
          exact hv

/-- C4 witness: the invariant applied to the concrete reachable state
in which user 1 sent `/start` and then `15.05.1990`. -/
theorem stored_birth_dates_validated_witness :
    ((1 : Int), "15.05.1990") ∈
      (handleMessage (handleMessage initState 1 "/start") 1 "15.05.1990").users ∧
    (validate_date "15.05.1990").isSome = true :=
  ⟨by decide,
   stored_birth_dates_validated _
     (Reachable.step _ 1 "15.05.1990" (Reachable.step _ 1 "/start" Reachable.init))
     ((1 : Int), "15.05.1990") (by decide)⟩

/-- C5: `save_user` then `get_user` for the same id returns exactly the
stored string; saving is an upsert — after any save the table holds
exactly one row for that id, carrying the latest value, so a second
save overwrites rather than appends. -/
theorem save_user_get_user_semantics :
    (∀ (db : UsersTable) (uid : Int) (bd : String),
        get_user (save_user db uid bd) uid = some bd) ∧
    (∀ (db : UsersTable) (uid : Int) (bd : String),
        (save_user db uid bd).filter (fun r => r.1 == uid) = [(uid, bd)]) ∧
    (∀ (db : UsersTable) (uid : Int) (bd1 bd2 : String),
        get_user (save_user (save_user db uid bd1) uid bd2) uid = some bd2) := by
  have hget : ∀ (db : UsersTable) (uid : Int) (bd : String),
      get_user (save_user db uid bd) uid = some bd := by
    intro db uid bd
    unfold get_user save_user
    rw [List.find?_append]
    have h1 : (db.filter (fun r => r.1 != uid)).find? (fun r => r.1 == uid) = none := by
      rw [List.find?_eq_none]
      intro x hx
      have h2 := (List.mem_filter.1 hx).2
      simp at h2 ⊢
      exact h2
    rw [h1]
    simp [List.find?]
  have hfilter : ∀ (db : UsersTable) (uid : Int) (bd : String),
      (save_user db uid bd).filter (fun r => r.1 == uid) = [(uid, bd)] := by
    intro db uid bd
    unfold save_user
    rw [List.filter_append]
    have h1 : (db.filter (fun r => r.1 != uid)).filter (fun r => r.1 == uid) = [] := by
      rw [List.filter_eq_nil_iff]
      intro a ha
      have h2 := (List.mem_filter.1 ha).2
      simp at h2 ⊢
      exact h2
    rw [h1]
    simp [List.filter]
  exact ⟨hget, hfilter, fun db uid bd1 bd2 => hget _ uid bd2⟩

/-- C6: the weekly broadcast attempts delivery to every stored user in
order, whatever the set of failing recipients: `send_weekly_update`
catches its own errors, so one recipient's failure never aborts the
rest. In particular, with three stored users where the send to the
second fails, delivery is still attempted — and succeeds — for the
first and the third. -/
theorem broadcast_attempts_all_users :
    (∀ (sendOk : Int → Bool) (db : UsersTable),
        (weekly_updates_task sendOk db).map Prod.fst =
          (get_all_users db).map Prod.fst) ∧
    weekly_updates_task (fun u => u != 2)
        [(1, "15.05.1990"), (2, "15.05.1990"), (3, "15.05.1990")] =
      [(1, SendOutcome.delivered), (2, SendOutcome.errorLogged),
       (3, SendOutcome.delivered)] := by
  constructor
  · intro sendOk db
    simp [weekly_updates_task, get_all_users]
  · decide

/-- C7: the weeks-lived value is the floor of the day difference
divided by 7; it is 0 when birth equals today, 1 when birth is exactly
7 days before today, and non-positive (not specially guarded) when the
birth date lies in the future. -/
theorem weeksLived_floor_semantics (birth today weekAgo future : PyDate)
    (hweek : toordinal weekAgo + 7 = toordinal today)
    (hfuture : toordinal today < toordinal future) :
    weeksLived birth today = ⌊(dateSubDays today birth : ℚ) / 7⌋ ∧
    weeksLived today today = 0 ∧
    weeksLived weekAgo today = 1 ∧
    weeksLived future today ≤ 0 := by
  have hfd : ∀ a : ℤ, Int.fdiv a 7 = ⌊(a : ℚ) / 7⌋ := by
    intro a
    rw [Int.fdiv_eq_ediv a (by norm_num), eq_comm]
    exact_mod_cast Rat.floor_intCast_div_natCast a 7
  refine ⟨hfd _, ?_, ?_, ?_⟩
  · unfold weeksLived dateSubDays
    rw [sub_self, Int.zero_fdiv]
  · unfold weeksLived dateSubDays
    have h7 : (toordinal today : ℤ) - (toordinal weekAgo : ℤ) = 7 := by omega
    rw [h7]
    decide
  · unfold weeksLived dateSubDays
    have hneg : (toordinal today : ℤ) - (toordinal future : ℤ) < 0 := by omega
    rw [Int.fdiv_eq_ediv _ (by norm_num)]
    exact le_of_lt (Int.ediv_neg' hneg (by norm_num))

/-- C7 witness: the theorem applied to 15.05.2020 as today, 08.05.2020
as the week-ago birth, 16.05.2020 as the future birth and 15.05.1990 as
a generic birth. -/
theorem weeksLived_floor_semantics_witness :
    toordinal ⟨2020, 5, 8⟩ + 7 = toordinal ⟨2020, 5, 15⟩ ∧
    toordinal ⟨2020, 5, 15⟩ < toordinal ⟨2020, 5, 16⟩ ∧
    weeksLived ⟨2020, 5, 15⟩ ⟨2020, 5, 15⟩ = 0 ∧
    weeksLived ⟨2020, 5, 8⟩ ⟨2020, 5, 15⟩ = 1 ∧
    weeksLived ⟨2020, 5, 16⟩ ⟨2020, 5, 15⟩ ≤ 0 := by
  have h := weeksLived_floor_semantics ⟨1990, 5, 15⟩ ⟨2020, 5, 15⟩ ⟨2020, 5, 8⟩
    ⟨2020, 5, 16⟩ (by decide) (by decide)
  exact ⟨by decide, by decide, h.2.1, h.2.2.1, h.2.2.2⟩

/-- C8: when the configured admin id is set and the sender's id
differs from it, the stats handler body emits only the access-denied
reply: none of the three database aggregations (user listing, message
count, top-5 query) appears in its action trace. -/
theorem admin_stats_denied_no_db (a sender : Int) (h : sender ≠ a) :
    admin_stats_handler_run (some a) sender = [AdminEffect.reply accessDeniedText] ∧
    AdminEffect.dbGetAllUsers ∉ admin_stats_handler_run (some a) sender ∧
    AdminEffect.dbCountMessages ∉ admin_stats_handler_run (some a) sender ∧
    AdminEffect.dbTopUsers ∉ admin_stats_handler_run (some a) sender := by
  have hrun : admin_stats_handler_run (some a) sender =
      [AdminEffect.reply accessDeniedText] := by
    unfold admin_stats_handler_run
    rw [if_pos]
    simp [h]
  refine ⟨hrun, ?_, ?_, ?_⟩ <;> rw [hrun] <;> simp

/-- C8 witness: the theorem applied to admin id 42 and sender 7. -/
theorem admin_stats_denied_no_db_witness :
    (7 : Int) ≠ 42 ∧
    admin_stats_handler_run (some 42) 7 = [AdminEffect.reply accessDeniedText] :=
  ⟨by decide, (admin_stats_denied_no_db 42 7 (by decide)).1⟩

/-- C9: the phases list has exactly 8 labels and, for every day of
month, `day % 8` is within bounds, so `get_moon_phase` never hits an
out-of-range index and always returns one of the 8 enumerated
labels. -/
theorem get_moon_phase_in_bounds :
    moonPhases.length = 8 ∧
    ∀ day_of_month : Nat, ∃ s, get_moon_phase day_of_month = some s ∧ s ∈ moonPhases := by
  refine ⟨rfl, fun day => ?_⟩
  have hlt : day % 8 < moonPhases.length := Nat.mod_lt day (by norm_num)
  exact ⟨moonPhases.get ⟨day % 8, hlt⟩,
    by rw [get_moon_phase, List.get?_eq_get hlt], List.get_mem _ _ _⟩

/-- C10: for every date string the legacy strptime check rejects, the
legacy `save_user` of `src/database.py` raises `ValueError` before
executing any write — the error escapes to the caller and the `users`
table is returned unchanged. -/
theorem database_save_user_invalid_raises (db : UsersTable) (uid : Int) (bd : String)
    (h : strptime_d_m_Y bd = none) :
    database_save_user db uid bd = Except.error ("Неверный формат даты", db) := by
  unfold database_save_user
  rw [if_neg]
  rw [h]
  simp

/-- C10 witness: the theorem applied to the unparseable input
`"not-a-date"` on a one-row table. -/
theorem database_save_user_invalid_raises_witness :
    strptime_d_m_Y "not-a-date" = none ∧
    database_save_user [((5 : Int), "01.01.2000")] 5 "not-a-date" =
      Except.error ("Неверный формат даты", [((5 : Int), "01.01.2000")]) :=
  ⟨by decide, database_save_user_invalid_raises [((5 : Int), "01.01.2000")] 5
    "not-a-date" (by decide)⟩
